import Mathlib

/-!
Shallow embedding of `crates/provider/src/fillers/from_filler.rs` and
`crates/provider/src/fillers/gas_price.rs` from the alloy repository.

Modelling choices:
* `Address` and the `u128` gas price are carried opaquely (no arithmetic is
  ever performed on them in the embedded code), so they are modelled as `Nat`.
* The network-generic transaction request `N::TransactionRequest` is modelled
  as a record with the two fields the fillers inspect (`from`, `gas_price`)
  plus a type-generic `rest` field standing for every other field of the
  request; the `TransactionBuilder` accessors `from`/`set_from` and
  `gas_price`/`set_gas_price` are record reads/updates of those fields.
* `SendableTx<N>` is the two-variant enum `Builder`/`Envelope`; the envelope
  payload is type-generic.
* The `Arc<OnceLock<u128>>` cache cell of `GasPriceFiller` is modelled by
  explicit state passing: `prepare` consumes the cell content observed by the
  `get()` call and returns the cell content after the call.  The extra
  `interim` argument of `prepare` is the cell content observed by the
  `get_or_init` call; in a single-threaded run it equals the content seen by
  `get()`, while under concurrent interference another clone of the `Arc` may
  have populated the cell in between, in which case `get_or_init` keeps the
  stored value and discards the freshly fetched one.
* The provider is an input: `FromFiller.prepare` receives an arbitrary
  provider value (and ignores it, as the source does), and the outcome of
  `provider.get_gas_price()` is the `fetch` argument of
  `GasPriceFiller.prepare`.  Fallible operations return `Except`.
-/

/-- A 20-byte account address, carried opaquely. -/
abbrev Address := Nat

/-- A `u128` gas price, carried opaquely (the embedded code never computes
with it, so no modular reduction is needed). -/
abbrev U128 := Nat

/-- An error produced by the transport layer; the embedded code only ever
propagates such errors, so the payload is opaque. -/
structure TransportError where
  code : Nat
deriving DecidableEq

/-- `alloy_transport::TransportResult`. -/
abbrev TransportResult (α : Type) := Except TransportError α

/-- The control-flow answer of `TxFiller::status`; the two fillers under
study only ever produce the `Finished` and `Ready` variants. -/
inductive FillerControlFlow where
  | ready : FillerControlFlow
  | finished : FillerControlFlow
deriving DecidableEq

/-- The network-generic transaction request: the sender field, the gas-price
field, and a generic `rest` standing for every other field. -/
structure TxRequest (ρ : Type) where
  from_ : Option Address
  gas_price : Option U128
  rest : ρ
deriving DecidableEq

/-- `TransactionBuilder::set_from` (a record update of the sender field). -/
def TxRequest.set_from (tx : TxRequest ρ) (addr : Address) : TxRequest ρ :=
  { tx with from_ := some addr }

/-- `TransactionBuilder::set_gas_price` (a record update of the gas-price
field). -/
def TxRequest.set_gas_price (tx : TxRequest ρ) (g : U128) : TxRequest ρ :=
  { tx with gas_price := some g }

/-- `SendableTx<N>`: either a builder-form request or a finalized envelope. -/
inductive SendableTx (ρ ε : Type) where
  | builder : TxRequest ρ → SendableTx ρ ε
  | envelope : ε → SendableTx ρ ε
deriving DecidableEq

/-- The `if let Some(builder) = tx.as_mut_builder() { … }` pattern: apply a
mutation to the builder when the value is in builder form, leave an envelope
untouched. -/
def SendableTx.mapBuilder (f : TxRequest ρ → TxRequest ρ) :
    SendableTx ρ ε → SendableTx ρ ε
  | .builder b => .builder (f b)
  | .envelope e => .envelope e

/-- Projection used to state frame conditions: the sender field of a
builder-form value. -/
def SendableTx.fromField : SendableTx ρ ε → Option (Option Address)
  | .builder b => some b.from_
  | .envelope _ => none

/-- Projection used to state frame conditions: the gas-price field of a
builder-form value. -/
def SendableTx.gasPriceField : SendableTx ρ ε → Option (Option U128)
  | .builder b => some b.gas_price
  | .envelope _ => none

/-- Projection used to state frame conditions: every field of a builder-form
value other than sender and gas price. -/
def SendableTx.restField : SendableTx ρ ε → Option ρ
  | .builder b => some b.rest
  | .envelope _ => none

/-- Projection used to state frame conditions: the payload of a finalized
envelope. -/
def SendableTx.envelopeField : SendableTx ρ ε → Option ε
  | .builder _ => none
  | .envelope e => some e

/-- Whether the value is in builder form. -/
def SendableTx.isBuilder : SendableTx ρ ε → Bool
  | .builder _ => true
  | .envelope _ => false

/-- `FromFiller(Address)`: a filler that populates the `from` address. -/
structure FromFiller where
  address : Address
deriving DecidableEq

/-- `FromFiller::new`. -/
def FromFiller.new (address : Address) : FromFiller :=
  ⟨address⟩

/-- `FromFiller::status`: `Finished` when the request already has a sender,
`Ready` otherwise. -/
def FromFiller.status (_f : FromFiller) (tx : TxRequest ρ) : FillerControlFlow :=
  if tx.from_.isSome then .finished else .ready

/-- `FromFiller::prepare`: ignores the provider and the request and returns
the unit fillable.  The provider is passed as an arbitrary value of an
arbitrary type to make the absence of any provider interaction visible. -/
def FromFiller.prepare (_f : FromFiller) (_provider : π) (_tx : TxRequest ρ) :
    TransportResult Unit :=
  .ok ()

/-- `FromFiller::fill`: on a builder, `set_from(self.0)` is called
unconditionally (the source has no `is_none` guard); an envelope is returned
untouched. -/
def FromFiller.fill (f : FromFiller) (_fillable : Unit) (tx : SendableTx ρ ε) :
    TransportResult (SendableTx ρ ε) :=
  .ok (tx.mapBuilder (fun b => b.set_from f.address))

/-- `GasPriceFiller(Arc<OnceLock<u128>>)`: the state of the once-cell cache. -/
structure GasPriceFiller where
  cache : Option U128
deriving DecidableEq

/-- `GasPriceFiller::new`: a fresh cell, populated up front when an explicit
gas price is supplied. -/
def GasPriceFiller.new (gas_price : Option U128) : GasPriceFiller :=
  ⟨gas_price⟩

/-- `GasPriceFiller::status`: `Finished` when the request already carries a
gas price, `Ready` otherwise. -/
def GasPriceFiller.status (_f : GasPriceFiller) (tx : TxRequest ρ) :
    FillerControlFlow :=
  if tx.gas_price.isSome then .finished else .ready

/-- `GasPriceFiller::prepare`.  `f.cache` is the cell content observed by
`self.0.get()`; `fetch` is the outcome of `provider.get_gas_price().await`;
`interim` is the cell content observed by `self.0.get_or_init(…)`
(equal to `f.cache` in a single-threaded run; possibly populated by a
concurrent holder of the `Arc` when `f.cache` was empty).  Returns the
`TransportResult` and the cell content after the call. -/
def GasPriceFiller.prepare (f : GasPriceFiller) (interim : Option U128)
    (fetch : TransportResult U128) : TransportResult U128 × GasPriceFiller :=
  match f.cache with
  | some g => (.ok g, f)
  | none =>
    match fetch with
    | .error e => (.error e, ⟨interim⟩)
    | .ok g =>
      match interim with
      | some w => (.ok w, ⟨some w⟩)
      | none => (.ok g, ⟨some g⟩)

/-- A single-threaded sequence of `prepare` calls on one filler instance,
threading the cache state; the list supplies each call's provider outcome.
Returns the results in order and the final cache state. -/
def GasPriceFiller.prepareRuns (f : GasPriceFiller) :
    List (TransportResult U128) → List (TransportResult U128) × GasPriceFiller
  | [] => ([], f)
  | fetch :: fs =>
    let step := f.prepare f.cache fetch
    let tail := step.2.prepareRuns fs
    (step.1 :: tail.1, tail.2)

/-- `GasPriceFiller::fill`: on a builder, `set_gas_price(fillable)` is called
only when the builder's gas price is still unset; an envelope is returned
untouched.  The cache cell is not consulted. -/
def GasPriceFiller.fill (_f : GasPriceFiller) (fillable : U128)
    (tx : SendableTx ρ ε) : TransportResult (SendableTx ρ ε) :=
  .ok (tx.mapBuilder (fun b =>
    if b.gas_price.isNone then b.set_gas_price fillable else b))

/-- Helper: a filler whose cell is already populated with `v` answers every
`prepare` in a run with `Ok v` and its cell never changes. -/
theorem prepareRuns_preset (v : U128) (fetches : List (TransportResult U128)) :
    (GasPriceFiller.mk (some v)).prepareRuns fetches =
      (fetches.map (fun _ => .ok v), GasPriceFiller.mk (some v)) := by
  induction fetches with
  | nil => rfl
  | cons f fs ih =>
    simp [GasPriceFiller.prepareRuns, GasPriceFiller.prepare, ih]

/-- Claim C1 (refuted; the code contradicts its own doc comment): the claim
says `FromFiller::fill` leaves an already-set sender `B` unchanged, but the
source calls `set_from(self.0)` on a builder unconditionally, so a builder
with sender `2` comes back with sender `1` (the configured address) instead
of unchanged. -/
theorem c1_from_fill_overwrites_preset_sender :
    (FromFiller.new 1).fill ()
        (SendableTx.builder (TxRequest.mk (some 2) none ()) : SendableTx Unit Unit) =
      .ok (.builder (TxRequest.mk (some 1) none ())) ∧
    (FromFiller.new 1).fill ()
        (SendableTx.builder (TxRequest.mk (some 2) none ()) : SendableTx Unit Unit) ≠
      .ok (.builder (TxRequest.mk (some 2) none ())) := by
  refine ⟨rfl, fun h => ?_⟩
  exact absurd (Except.ok.inj h) (by decide)

/-- Claim C2: the cache cell is write-once: with the cell holding `v`, a
single `prepare` (under any interference and any provider outcome) returns
`Ok v` and leaves the cell at `v`, and any single-threaded run of `prepare`
calls answers `Ok v` throughout and ends with the cell still at `v`. -/
theorem c2_cache_write_once (v : U128) (interim : Option U128)
    (fetch : TransportResult U128) (fetches : List (TransportResult U128)) :
    (GasPriceFiller.mk (some v)).prepare interim fetch =
      (.ok v, GasPriceFiller.mk (some v)) ∧
    (GasPriceFiller.mk (some v)).prepareRuns fetches =
      (fetches.map (fun _ => .ok v), GasPriceFiller.mk (some v)) :=
  ⟨rfl, prepareRuns_preset v fetches⟩

/-- Claim C3: `FromFiller::status` is `Finished` iff the request's sender is
present and `Ready` iff it is absent, and `GasPriceFiller::status` is
`Finished` iff the gas price is present and `Ready` iff it is absent; both
are pure functions of the request. -/
theorem c3_status_iff (ff : FromFiller) (gf : GasPriceFiller) (tx : TxRequest ρ) :
    (ff.status tx = .finished ↔ tx.from_.isSome = true) ∧
    (ff.status tx = .ready ↔ tx.from_ = none) ∧
    (gf.status tx = .finished ↔ tx.gas_price.isSome = true) ∧
    (gf.status tx = .ready ↔ tx.gas_price = none) := by
  rcases tx with ⟨f, g, r⟩
  rcases f with _ | a <;> rcases g with _ | p <;>
    simp [FromFiller.status, GasPriceFiller.status]

/-- Claim C4: `GasPriceFiller::fill` on a builder whose gas price is already
set returns the value unchanged, whatever the fillable. -/
theorem c4_gas_fill_preset_unchanged (gf : GasPriceFiller) (fillable : U128)
    (b : TxRequest ρ) (h : b.gas_price.isSome = true) :
    gf.fill fillable (SendableTx.builder b : SendableTx ρ ε) = .ok (.builder b) := by
  rcases b with ⟨f, g, r⟩
  rcases g with _ | p
  · simp at h
  · rfl

/-- Witness for C4 at a concrete input: gas price `3` already set, fillable
`9` discarded. -/
theorem c4_witness :
    (TxRequest.mk none (some 3) () : TxRequest Unit).gas_price.isSome = true ∧
    (GasPriceFiller.mk none).fill 9
        (SendableTx.builder (TxRequest.mk none (some 3) ()) : SendableTx Unit Unit) =
      .ok (.builder (TxRequest.mk none (some 3) ())) :=
  ⟨rfl, c4_gas_fill_preset_unchanged ⟨none⟩ 9 (TxRequest.mk none (some 3) ()) rfl⟩

/-- Claim C5: for both fillers, `fill` always returns `Ok`, and on a
finalized (envelope) value it returns the value completely unchanged. -/
theorem c5_fill_infallible_envelope_noop (ff : FromFiller) (gf : GasPriceFiller)
    (fillable : U128) (tx : SendableTx ρ ε) (e : ε) :
    (∃ tx1, ff.fill () tx = .ok tx1) ∧
    (∃ tx2, gf.fill fillable tx = .ok tx2) ∧
    ff.fill () (SendableTx.envelope e : SendableTx ρ ε) = .ok (.envelope e) ∧
    gf.fill fillable (SendableTx.envelope e : SendableTx ρ ε) = .ok (.envelope e) :=
  ⟨⟨_, rfl⟩, ⟨_, rfl⟩, rfl, rfl⟩

/-- Claim C6: a filler constructed with an explicit price `p` never consults
the provider: one `prepare` gives the same answer for any two provider
outcomes and any two interferences, that answer is `Ok p` with the cell
unchanged, and a whole run of `prepare` calls answers `Ok p` throughout
whatever the provider would have returned. -/
theorem c6_preset_price_ignores_provider (p : U128)
    (interim1 interim2 : Option U128) (fetch1 fetch2 : TransportResult U128)
    (fetches : List (TransportResult U128)) :
    (GasPriceFiller.new (some p)).prepare interim1 fetch1 =
      (GasPriceFiller.new (some p)).prepare interim2 fetch2 ∧
    (GasPriceFiller.new (some p)).prepare interim1 fetch1 =
      (.ok p, GasPriceFiller.new (some p)) ∧
    (GasPriceFiller.new (some p)).prepareRuns fetches =
      (fetches.map (fun _ => .ok p), GasPriceFiller.new (some p)) :=
  ⟨rfl, rfl, prepareRuns_preset p fetches⟩

/-- Claim C7: with an empty cell, a failed provider query makes `prepare`
return exactly that error, and the call itself writes nothing to the cell
(the cell afterwards is exactly what concurrent interference left there; in
particular, with no interference it is still empty). -/
theorem c7_prepare_error_propagates_cache_untouched (e : TransportError)
    (interim : Option U128) :
    (GasPriceFiller.new none).prepare interim (.error e) = (.error e, ⟨interim⟩) ∧
    (GasPriceFiller.new none).prepare none (.error e) =
      (.error e, GasPriceFiller.new none) :=
  ⟨rfl, rfl⟩

/-- Claim C8: for a `FromFiller` with address `A` and a builder request with
absent sender: `status` is `Ready`, `prepare` is `Ok ()` and is independent
of the provider (any provider value, of any type), and `fill` of the unit
fillable sets the sender to `A`. -/
theorem c8_absent_sender_pipeline (A : Address) (prov1 : π) (prov2 : σ)
    (b : TxRequest ρ) (h : b.from_ = none) :
    (FromFiller.new A).status b = .ready ∧
    (FromFiller.new A).prepare prov1 b = .ok () ∧
    (FromFiller.new A).prepare prov1 b = (FromFiller.new A).prepare prov2 b ∧
    (FromFiller.new A).fill () (SendableTx.builder b : SendableTx ρ ε) =
      .ok (.builder { b with from_ := some A }) := by
  refine ⟨?_, rfl, rfl, rfl⟩
  simp [FromFiller.status, h]

/-- Witness for C8 at a concrete input: address `7`, empty request, two
distinct provider values of distinct types. -/
theorem c8_witness :
    (TxRequest.mk none none () : TxRequest Unit).from_ = none ∧
    (FromFiller.new 7).fill ()
        (SendableTx.builder (TxRequest.mk none none ()) : SendableTx Unit Unit) =
      .ok (.builder (TxRequest.mk (some 7) none ())) :=
  ⟨rfl, (c8_absent_sender_pipeline 7 () (0 : Nat) (TxRequest.mk none none ()) rfl).2.2.2⟩

/-- Claim C9: `FromFiller::fill` preserves every field but the sender, and
`GasPriceFiller::fill` preserves every field but the gas price; both
preserve the builder/envelope shape and the envelope payload. -/
theorem c9_fill_frame (ff : FromFiller) (gf : GasPriceFiller)
    (fillable : U128) (tx : SendableTx ρ ε) :
    (∃ tx1, ff.fill () tx = .ok tx1 ∧
      tx1.gasPriceField = tx.gasPriceField ∧ tx1.restField = tx.restField ∧
      tx1.isBuilder = tx.isBuilder ∧ tx1.envelopeField = tx.envelopeField) ∧
    (∃ tx2, gf.fill fillable tx = .ok tx2 ∧
      tx2.fromField = tx.fromField ∧ tx2.restField = tx.restField ∧
      tx2.isBuilder = tx.isBuilder ∧ tx2.envelopeField = tx.envelopeField) := by
  constructor
  · rcases tx with ⟨f, g, r⟩ | e
    · exact ⟨_, rfl, rfl, rfl, rfl, rfl⟩
    · exact ⟨_, rfl, rfl, rfl, rfl, rfl⟩
  · rcases tx with ⟨f, g, r⟩ | e
    · rcases g with _ | p
      · exact ⟨_, rfl, rfl, rfl, rfl, rfl⟩
      · exact ⟨_, rfl, rfl, rfl, rfl, rfl⟩
    · exact ⟨_, rfl, rfl, rfl, rfl, rfl⟩

/-- Claim C10: whenever `prepare` succeeds with `Ok v`, the cell afterwards
holds exactly `v` — also in the interference case where the freshly fetched
value is discarded in favor of the one another holder of the cell stored. -/
theorem c10_ok_matches_cache (f : GasPriceFiller) (interim : Option U128)
    (fetch : TransportResult U128) (v : U128)
    (h : (f.prepare interim fetch).1 = .ok v) :
    (f.prepare interim fetch).2 = GasPriceFiller.mk (some v) := by
  rcases f with ⟨_ | g⟩
  · rcases fetch with e | g
    · exact absurd h (by simp [GasPriceFiller.prepare])
    · rcases interim with _ | w <;>
      · simp [GasPriceFiller.prepare] at h ⊢
        exact h
  · simp [GasPriceFiller.prepare] at h ⊢
    exact h

/-- Witness for C10 at a concrete input exercising the discarded-fetch case:
empty cell at `get()`, interference stored `5`, provider fetched `7`; the
call returns `Ok 5` and the cell holds `5`. -/
theorem c10_witness :
    ((GasPriceFiller.mk none).prepare (some 5) (.ok 7)).1 = .ok 5 ∧
    ((GasPriceFiller.mk none).prepare (some 5) (.ok 7)).2 =
      GasPriceFiller.mk (some 5) :=
  ⟨rfl, c10_ok_matches_cache ⟨none⟩ (some 5) (.ok 7) 5 rfl⟩
